import Mathlib

/-!
Shallow embedding of `src/execution/execution_info.py` (class `ExecutionInfo`).

Time values are modelled as rationals.  Host clock reads (`time.time()`,
`datetime.datetime.now()`) and host platform reads (`platform.system()`,
`platform.release()`) are environment inputs, so the corresponding methods
take them as explicit arguments.  `print` calls are modelled as a list of
emitted lines.
-/

/-- State of a Python `ExecutionInfo` object: `data_execucao` is set in
`__init__`, `inicio` and `fim` start as `None`. -/
structure ExecutionInfo where
  data_execucao : ℚ
  inicio : Option ℚ
  fim : Option ℚ
deriving DecidableEq, Repr

namespace ExecutionInfo

/-- `__init__`: `data_execucao` gets the current wall-clock time (the
argument `now`), `inicio` and `fim` are `None`. -/
def init (now : ℚ) : ExecutionInfo :=
  { data_execucao := now, inicio := none, fim := none }

/-- `iniciar_execucao`: `self.inicio = time.time()`. -/
def iniciar_execucao (s : ExecutionInfo) (now : ℚ) : ExecutionInfo :=
  { s with inicio := some now }

/-- `finalizar_execucao`: `self.fim = time.time()`. -/
def finalizar_execucao (s : ExecutionInfo) (now : ℚ) : ExecutionInfo :=
  { s with fim := some now }

/-- `calcular_tempo_execucao`: returns `self.fim - self.inicio` when both
are not `None`, otherwise `None`. -/
def calcular_tempo_execucao (s : ExecutionInfo) : Option ℚ :=
  match s.inicio, s.fim with
  | some i, some f => some (f - i)
  | _, _ => none

end ExecutionInfo

/-- `obter_sistema_operacional`: the f-string
`platform.system() ++ "-" ++ platform.release()`; the two platform reads
are the arguments. -/
def obter_sistema_operacional (system release : String) : String :=
  system ++ "-" ++ release

/-- The separator line printed first and last by `imprimir_info`: the
source literal is a run of 65 equals signs. -/
def separador : String :=
  String.mk (List.replicate 65 '=')

/-- Round a rational to the nearest integer, ties to even: the rounding
used by Python `format` with `.2f` (applied here to exact rationals). -/
def roundHalfEven (q : ℚ) : ℤ :=
  let f : ℤ := Int.fdiv q.num (q.den : ℤ)
  let r : ℚ := q - (f : ℚ)
  if r < 1/2 then f
  else if 1/2 < r then f + 1
  else if f % 2 = 0 then f else f + 1

/-- Python `f'<x>:.2f'` on a (signed) rational: nearest-even rounding to
two decimal places, a leading minus sign for negative values (including a
negative value rounding to zero), and exactly two digits after the dot. -/
def formatFixed2 (q : ℚ) : String :=
  ((if roundHalfEven (q * 100) < 0 ∨ (roundHalfEven (q * 100) = 0 ∧ q < 0)
      then "-" else "")
    ++ toString ((roundHalfEven (q * 100)).natAbs / 100))
  ++ "." ++
  String.mk [Nat.digitChar ((roundHalfEven (q * 100)).natAbs / 10 % 10),
             Nat.digitChar ((roundHalfEven (q * 100)).natAbs % 10)]

/-- `imprimir_info`: the five `print` calls, in order, as a list of lines.
`system` and `release` are the platform reads inside
`obter_sistema_operacional`; `strftime` is Python's
`strftime("%Y-%m-%d %H:%M:%S")` applied to `data_execucao`. -/
def imprimir_info (s : ExecutionInfo) (system release : String)
    (strftime : ℚ → String) : List String :=
  let tempo_execucao := s.calcular_tempo_execucao
  [ separador,
    "SISTEMA OPERACIONAL: " ++ obter_sistema_operacional system release,
    "DATA DE EXECUÇÃO: " ++ strftime s.data_execucao,
    (match tempo_execucao with
     | some t => "TEMPO DE EXECUÇÃO: " ++ formatFixed2 t ++ " segundos"
     | none => "TEMPO DE EXECUÇÃO"),
    separador ]

/-- The operations that can be applied to an `ExecutionInfo` object after
construction.  The mark operations carry the clock reading they observe;
the read operations carry the platform reads they observe. -/
inductive Op where
  | markStart (t : ℚ)
  | markEnd (t : ℚ)
  | computeDuration
  | detectOS (system release : String)
  | printSummary (system release : String)
deriving DecidableEq, Repr

/-- State transition of each operation.  `iniciar_execucao` and
`finalizar_execucao` assign a field; the three read methods contain no
assignment, so they leave the object unchanged. -/
def step (s : ExecutionInfo) : Op → ExecutionInfo
  | .markStart t => s.iniciar_execucao t
  | .markEnd t => s.finalizar_execucao t
  | .computeDuration => s
  | .detectOS _ _ => s
  | .printSummary _ _ => s

/-- C1: if both `markStart` and `markEnd` have been recorded, with end
timestamp `t2` and start timestamp `t1` and `t2 ≥ t1`, then
`calcular_tempo_execucao` returns exactly `t2 - t1`, which is
non-negative. -/
theorem C1_duration_exact (s : ExecutionInfo) (t1 t2 : ℚ)
    (h1 : s.inicio = some t1) (h2 : s.fim = some t2) (hle : t1 ≤ t2) :
    s.calcular_tempo_execucao = some (t2 - t1) ∧ 0 ≤ t2 - t1 := by
  constructor
  · simp [ExecutionInfo.calcular_tempo_execucao, h1, h2]
  · linarith

/-- Witness for C1 at the record with start 1 and end 3. -/
theorem C1_duration_exact_witness :
    (ExecutionInfo.mk 0 (some 1) (some 3)).calcular_tempo_execucao
      = some ((3 : ℚ) - 1) ∧ (0 : ℚ) ≤ (3 : ℚ) - 1 :=
  C1_duration_exact (ExecutionInfo.mk 0 (some 1) (some 3)) 1 3 rfl rfl
    (by norm_num)

/-- C2: if `inicio` or `fim` (or both) is absent, `calcular_tempo_execucao`
returns `none`; the embedding is a total function, so no exception is
possible and absence of the result is the only signal. -/
theorem C2_duration_absent (s : ExecutionInfo)
    (h : s.inicio = none ∨ s.fim = none) :
    s.calcular_tempo_execucao = none := by
  rcases h with h | h
  · simp [ExecutionInfo.calcular_tempo_execucao, h]
  · cases hi : s.inicio <;>
      simp [ExecutionInfo.calcular_tempo_execucao, hi, h]

/-- Witness for C2 at a freshly constructed record. -/
theorem C2_duration_absent_witness :
    (ExecutionInfo.init 0).calcular_tempo_execucao = none :=
  C2_duration_absent (ExecutionInfo.init 0) (Or.inl rfl)

/-- C3: in every state, `imprimir_info` emits exactly 5 lines, the first
and last being the same separator line, which is 65 characters long and
consists only of equals signs. -/
theorem C3_five_lines (s : ExecutionInfo) (system release : String)
    (strftime : ℚ → String) :
    (imprimir_info s system release strftime).length = 5 ∧
    (∃ l2 l3 l4, imprimir_info s system release strftime
        = [separador, l2, l3, l4, separador]) ∧
    separador.length = 65 ∧
    separador.data.all (fun c => c == '=') = true := by
  refine ⟨rfl, ⟨_, _, _, rfl⟩, by with_unfolding_all decide,
    by with_unfolding_all decide⟩

/-- C4: the duration line (line 4) of `imprimir_info` is the label
followed by the duration formatted with exactly two digits after the
decimal point and the unit `segundos` whenever the duration is defined,
and is the bare label (no digit, no unit) when it is undefined; the
formatting rounds to two decimals (0.004 prints as 0.00 and 0.006 as 0.01,
where truncation would give 0.00). -/
theorem C4_duration_line (s : ExecutionInfo) (system release : String)
    (strftime : ℚ → String) :
    (∀ d, s.calcular_tempo_execucao = some d →
      (imprimir_info s system release strftime).get? 3
          = some ("TEMPO DE EXECUÇÃO: " ++ formatFixed2 d ++ " segundos") ∧
      ∃ ip fp, formatFixed2 d = ip ++ "." ++ fp ∧ fp.length = 2) ∧
    (s.calcular_tempo_execucao = none →
      (imprimir_info s system release strftime).get? 3
          = some "TEMPO DE EXECUÇÃO" ∧
      "TEMPO DE EXECUÇÃO".data.all (fun c => ! c.isDigit) = true) ∧
    formatFixed2 (mkRat 1 250) = "0.00" ∧
    formatFixed2 (mkRat 3 500) = "0.01" := by
  refine ⟨?_, ?_, by with_unfolding_all decide, by with_unfolding_all decide⟩
  · intro d hd
    refine ⟨by simp [imprimir_info, hd], ?_⟩
    exact ⟨_, _, rfl, rfl⟩
  · intro hd
    exact ⟨by simp [imprimir_info, hd], by with_unfolding_all decide⟩

/-- Witness for C4 at the record of scenario D (start 0, end 0.004) and at
an empty record. -/
theorem C4_duration_line_witness :
    ((imprimir_info (ExecutionInfo.mk 0 (some 0) (some (mkRat 1 250)))
        "Linux" "6.5.0" (fun _ => "2024-01-01 00:00:00")).get? 3
      = some ("TEMPO DE EXECUÇÃO: " ++ formatFixed2 (mkRat 1 250 - 0)
          ++ " segundos")) ∧
    formatFixed2 (mkRat 1 250) = "0.00" ∧
    ((imprimir_info (ExecutionInfo.init 0)
        "Linux" "6.5.0" (fun _ => "2024-01-01 00:00:00")).get? 3
      = some "TEMPO DE EXECUÇÃO") :=
  ⟨((C4_duration_line (ExecutionInfo.mk 0 (some 0) (some (mkRat 1 250)))
      "Linux" "6.5.0" (fun _ => "2024-01-01 00:00:00")).1
      (mkRat 1 250 - 0) (by with_unfolding_all decide)).1,
   (C4_duration_line (ExecutionInfo.init 0)
      "Linux" "6.5.0" (fun _ => "2024-01-01 00:00:00")).2.2.1,
   ((C4_duration_line (ExecutionInfo.init 0)
      "Linux" "6.5.0" (fun _ => "2024-01-01 00:00:00")).2.1 rfl).1⟩
/-- C5: with non-empty platform reads, `obter_sistema_operacional` returns
the string `family ++ "-" ++ release`, which is non-empty and is a `-`
joining two non-empty substrings; on family `Linux`, release `6.5.0` it
returns `Linux-6.5.0`. -/
theorem C5_detect_os (system release : String)
    (hs : system ≠ "") (hr : release ≠ "") :
    obter_sistema_operacional system release = system ++ "-" ++ release ∧
    obter_sistema_operacional system release ≠ "" ∧
    (∃ a b, a ≠ "" ∧ b ≠ "" ∧
      obter_sistema_operacional system release = a ++ "-" ++ b) ∧
    obter_sistema_operacional "Linux" "6.5.0" = "Linux-6.5.0" := by
  refine ⟨rfl, ?_, ⟨system, release, hs, hr, rfl⟩,
    by with_unfolding_all decide⟩
  intro h
  have hlen := congrArg String.length h
  simp [obter_sistema_operacional, String.length_append] at hlen
  exact absurd hlen.1.2 (by decide)

/-- Witness for C5 at family `Linux`, release `6.5.0`. -/
theorem C5_detect_os_witness :
    obter_sistema_operacional "Linux" "6.5.0" = "Linux" ++ "-" ++ "6.5.0" ∧
    obter_sistema_operacional "Linux" "6.5.0" ≠ "" :=
  ⟨(C5_detect_os "Linux" "6.5.0" (by decide) (by decide)).1,
   (C5_detect_os "Linux" "6.5.0" (by decide) (by decide)).2.1⟩

/-- C6 counterexample: a record whose `inicio` is already set is changed
by a later `markStart` with a different timestamp, so it is false that
once set the field is never changed by any subsequent operation. -/
theorem C6_counterexample :
    ((ExecutionInfo.init 0).iniciar_execucao 1).inicio.isSome = true ∧
    (step ((ExecutionInfo.init 0).iniciar_execucao 1)
        (Op.markStart 2)).inicio
      ≠ ((ExecutionInfo.init 0).iniciar_execucao 1).inicio := by
  with_unfolding_all decide

/-- C6 amended: once `inicio` (resp. `fim`) is set, no operation resets it
to absent, and the only operation that changes it is a further `markStart`
(resp. `markEnd`), which overwrites it with the new timestamp. -/
theorem C6_once_set_never_absent (s : ExecutionInfo) (op : Op) :
    (s.inicio.isSome = true → ((step s op).inicio).isSome = true) ∧
    (s.fim.isSome = true → ((step s op).fim).isSome = true) ∧
    ((∀ t, op ≠ Op.markStart t) → (step s op).inicio = s.inicio) ∧
    ((∀ t, op ≠ Op.markEnd t) → (step s op).fim = s.fim) := by
  cases op <;>
    simp [step, ExecutionInfo.iniciar_execucao,
      ExecutionInfo.finalizar_execucao]

/-- Witness for C6 amended: a set `inicio` survives `computeDuration`. -/
theorem C6_once_set_never_absent_witness :
    ((step (ExecutionInfo.mk 0 (some 1) none)
        Op.computeDuration).inicio).isSome = true ∧
    (step (ExecutionInfo.mk 0 (some 1) none) Op.computeDuration).fim
      = (ExecutionInfo.mk 0 (some 1) none).fim :=
  ⟨(C6_once_set_never_absent (ExecutionInfo.mk 0 (some 1) none)
      Op.computeDuration).1 rfl,
   (C6_once_set_never_absent (ExecutionInfo.mk 0 (some 1) none)
      Op.computeDuration).2.2.2 (fun t h => by cases h)⟩

/-- C7: a second `iniciar_execucao` silently overwrites `inicio` with the
newer timestamp, and `finalizar_execucao` does the same for `fim`; both
are total functions, so no error is raised. -/
theorem C7_overwrite (s : ExecutionInfo) (t t2 : ℚ) :
    (s.iniciar_execucao t).inicio = some t ∧
    ((s.iniciar_execucao t).iniciar_execucao t2).inicio = some t2 ∧
    (s.finalizar_execucao t).fim = some t ∧
    ((s.finalizar_execucao t).finalizar_execucao t2).fim = some t2 :=
  ⟨rfl, rfl, rfl, rfl⟩

/-- C8: `data_execucao` is set at construction to the wall-clock reading
taken there, and every subsequent operation leaves it unchanged. -/
theorem C8_creation_frame (t : ℚ) (s : ExecutionInfo) (op : Op) :
    (ExecutionInfo.init t).data_execucao = t ∧
    (step s op).data_execucao = s.data_execucao := by
  refine ⟨rfl, ?_⟩
  cases op <;> rfl

/-- C9: calling `finalizar_execucao` before `iniciar_execucao` succeeds
(the embedding is total), and once both fields are populated the duration
is `fim - inicio`, which is negative when the end reading precedes the
start reading. -/
theorem C9_out_of_order (t0 t1 t2 : ℚ) :
    (((ExecutionInfo.init t0).finalizar_execucao t2).iniciar_execucao
        t1).calcular_tempo_execucao = some (t2 - t1) ∧
    (t2 < t1 → t2 - t1 < 0) := by
  refine ⟨rfl, fun h => by linarith⟩

/-- Witness for C9: end at 2, then start at 5, gives duration 2 - 5 < 0. -/
theorem C9_out_of_order_witness :
    (((ExecutionInfo.init 0).finalizar_execucao 2).iniciar_execucao
        5).calcular_tempo_execucao = some ((2 : ℚ) - 5) ∧
    (2 : ℚ) - 5 < 0 :=
  ⟨(C9_out_of_order 0 5 2).1, (C9_out_of_order 0 5 2).2 (by norm_num)⟩

/-- C10: the read operations (`computeDuration`, `detectOS`,
`printSummary`) leave the record unchanged; only `markStart` and
`markEnd` mutate it, each touching only its own field. -/
theorem C10_reads_pure (s : ExecutionInfo) (system release : String) :
    step s Op.computeDuration = s ∧
    step s (Op.detectOS system release) = s ∧
    step s (Op.printSummary system release) = s ∧
    (∀ t, step s (Op.markStart t) = s.iniciar_execucao t) ∧
    (∀ t, step s (Op.markEnd t) = s.finalizar_execucao t) :=
  ⟨rfl, rfl, rfl, fun _ => rfl, fun _ => rfl⟩
